import Mathlib

/-!
Shallow embedding of the book-search MCP server (src/src/book_server.rs).

The server holds a fixed catalog of five fictional books, exposes one tool
`search` that filters the catalog by case-folded substring match on
title/author/description and truncates with `Iterator::take` after casting the
`i32` limit to `usize`, renders the matches to a single Japanese text block,
and answers the resource/prompt handlers with fixed empty or error responses.

Machine integers are modelled as `Int`/`Nat` with explicit reduction modulo
`2 ^ 64` where the `as usize` cast matters.  Rust's `str::to_lowercase` is
modelled as per-character ASCII lowercase folding (`Char.toLower`), which
agrees with Rust on every string occurring in this program (the catalog's
non-ASCII characters are caseless).  Rust's `str::contains` is modelled as
character-level substring containment; on valid UTF-8, byte-level containment
of a well-formed needle coincides with character-level containment because
UTF-8 is self-synchronizing.
-/

namespace BookServer

/-- The `Book` struct: title, author, fictional year (i32), description, isbn. -/
structure Book where
  title : String
  author : String
  year : Int
  description : String
  isbn : String
deriving DecidableEq, Repr

/-- The `SearchQuery` struct: required keyword, optional i32 limit. -/
structure SearchQuery where
  keyword : String
  limit : Option Int
deriving DecidableEq, Repr

/-- Rust `str::to_lowercase`, restricted to ASCII folding: each character in
the range `A`..`Z` is shifted to its lowercase form, all others (including
every Japanese character in the catalog) are unchanged. -/
def lowerString (s : String) : String :=
  ⟨s.data.map Char.toLower⟩

/-- Rust `hay.contains(needle)`: substring containment at character level. -/
def strContains (hay needle : String) : Bool :=
  decide (needle.data <:+: hay.data)

/-- The filter predicate of `BookSearch::search`: the lowercased keyword is a
substring of the lowercased title, author, or description. -/
def bookMatches (keyword : String) (b : Book) : Bool :=
  strContains (lowerString b.title) (lowerString keyword) ||
  strContains (lowerString b.author) (lowerString keyword) ||
  strContains (lowerString b.description) (lowerString keyword)

/-- The `as usize` cast applied to the i32 limit: reinterpretation of the
sign-extended value, i.e. reduction modulo `2 ^ 64` on a 64-bit target. -/
def usizeOfI32 (i : Int) : Nat :=
  (i % (2 : Int) ^ 64).toNat

/-- The first book of `get_fake_books` (the quantum-cooking book). -/
def quantumBook : Book :=
  { title := "量子コンピュータで料理する方法"
    author := "Dr. スーパーサイエンティスト"
    year := 2157
    description := "量子コンピュータを使用して、分子レベルで料理を再構築する革新的な方法を解説"
    isbn := "978-0-123456-47-11" }

/-- The second book of `get_fake_books`. -/
def timeTravelBook : Book :=
  { title := "タイムトラベルと税金対策"
    author := "未来の会計士"
    year := 3000
    description := "タイムトラベルを活用した効率的な税金対策を解説"
    isbn := "978-0-123456-47-12" }

/-- The third book of `get_fake_books`. -/
def marsBook : Book :=
  { title := "火星での園芸入門"
    author := "火星の園芸家"
    year := 2250
    description := "火星の特殊な環境で植物を育てる方法を解説。"
    isbn := "978-0-123456-47-13" }

/-- The fourth book of `get_fake_books`. -/
def aiBook : Book :=
  { title := "AIと恋愛の心理学"
    author := "ロボット心理学者"
    year := 2200
    description := "AIとの恋愛関係における心理学的な考察と実践的なアドバイス。"
    isbn := "978-0-123456-47-14" }

/-- The fifth book of `get_fake_books`. -/
def telepathyBook : Book :=
  { title := "テレパシーでプログラミング"
    author := "サイキックエンジニア"
    year := 2300
    description := "テレパシー能力を使用してコードを書く方法を解説。"
    isbn := "978-0-123456-47-15" }

/-- The fixed catalog built by `get_fake_books` (the `OnceLock` initializer is
pure, so its once-initialized content is this constant list). -/
def get_fake_books : List Book :=
  [quantumBook, timeTravelBook, marsBook, aiBook, telepathyBook]

/-- The filter-and-take core of `BookSearch::search`: keep the books whose
lowercased title, author, or description contains the lowercased keyword, in
catalog order, and truncate with `take` at the usize-cast limit
(`limit.unwrap_or(5) as usize`). -/
def searchResults (books : List Book) (q : SearchQuery) : List Book :=
  (books.filter (bookMatches q.keyword)).take (usizeOfI32 (q.limit.getD 5))

/-- The literal prefix shared by both output templates of `search`. -/
def keywordPrefix : String := "キーワード \x27"

/-- Tail of the no-results template, after the interpolated keyword. -/
def noResultsTail : String := "\x27 に一致する本が見つかりませんでした。"

/-- Tail of the results header template, after the interpolated keyword. -/
def headerTail : String := "\x27 の検索結果:\n\n"

/-- The no-results message of `search`. -/
def noResultsMsg (keyword : String) : String :=
  keywordPrefix ++ keyword ++ noResultsTail

/-- The header line (with trailing blank line) of a non-empty result. -/
def searchHeader (keyword : String) : String :=
  keywordPrefix ++ keyword ++ headerTail

/-- One formatted block per matching book, ending in the blank separator line. -/
def bookBlock (b : Book) : String :=
  "タイトル: " ++ b.title ++ "\n著者: " ++ b.author ++ "\n出版年: " ++
    toString b.year ++ "\nISBN: " ++ b.isbn ++ "\n説明: " ++ b.description ++ "\n\n"

/-- The output string built by `search`: the no-results message when the match
set is empty, otherwise the header followed by one block per match accumulated
by `push_str` (a left fold). -/
def renderOutput (keyword : String) (results : List Book) : String :=
  if results.isEmpty then noResultsMsg keyword
  else results.foldl (fun acc b => acc ++ bookBlock b) (searchHeader keyword)

/-- Modelled from the spec: the per-record blocks concatenated in order, the
form §4.3 describes ("one block per match ... in the same order as matches"). -/
def renderedBlocks (results : List Book) : String :=
  results.foldr (fun b acc => bookBlock b ++ acc) ""

/-- A content item of a tool result; `search` only ever produces `text`. -/
inductive Content where
  | text : String → Content
deriving DecidableEq, Repr

/-- The protocol success envelope for a tool call (`CallToolResult`). -/
structure CallToolResult where
  content : List Content
  isError : Option Bool
deriving DecidableEq, Repr

/-- `CallToolResult::success`: wraps content with `is_error = Some(false)`. -/
def CallToolResult.success (content : List Content) : CallToolResult :=
  { content := content, isError := some false }

/-- Minimal JSON values, enough for the error detail payloads used here. -/
inductive Json where
  | str : String → Json
  | obj : List (String × Json) → Json

/-- The protocol error value (`McpError`): JSON-RPC code, message, detail. -/
structure McpError where
  code : Int
  message : String
  data : Option Json

/-- `McpError::resource_not_found`: code -32002 with the given detail. -/
def McpError.resource_not_found (message : String) (data : Option Json) : McpError :=
  { code := -32002, message := message, data := data }

/-- The `search` tool handler: filter, truncate, render, and wrap the text in
a success envelope.  It is total: the `Err` branch of the result type is never
produced. -/
def search (q : SearchQuery) : Except McpError CallToolResult :=
  Except.ok (CallToolResult.success
    [Content.text (renderOutput q.keyword (searchResults get_fake_books q))])

/-- Result type of `read_resource` (never constructed by this server). -/
structure ReadResourceResult where
  contents : List Json

/-- The `read_resource` handler: always fails with a resource-not-found error
whose detail object carries the requested uri. -/
def read_resource (uri : String) : Except McpError ReadResourceResult :=
  Except.error (McpError.resource_not_found "resource_not_found"
    (some (Json.obj [("uri", Json.str uri)])))

/-! Helper lemmas shared by the claim theorems. -/

theorem str_ext {s t : String} (h : s.data = t.data) : s = t := by
  cases s
  cases t
  exact congrArg String.mk h

theorem toNat_ofNat_small {n : Nat} (h : n < 55296) : (Char.ofNat n).toNat = n := by
  have hv : n.isValidChar := Or.inl h
  simp [Char.ofNat, hv, Char.ofNatAux, Char.toNat, UInt32.toNat]

theorem charToLower_idem (c : Char) : c.toLower.toLower = c.toLower := by
  simp only [Char.toLower]
  by_cases h : c.toNat ≥ 65 ∧ c.toNat ≤ 90
  · rw [if_pos h]
    have hv : (Char.ofNat (c.toNat + 32)).toNat = c.toNat + 32 :=
      toNat_ofNat_small (by omega)
    rw [if_neg]
    rw [hv]
    omega
  · rw [if_neg h, if_neg h]

theorem lowerString_idem (s : String) : lowerString (lowerString s) = lowerString s := by
  apply str_ext
  show (s.data.map Char.toLower).map Char.toLower = s.data.map Char.toLower
  rw [List.map_map]
  exact List.map_congr_left fun c _ => charToLower_idem c

theorem str_append_assoc (a b c : String) : a ++ b ++ c = a ++ (b ++ c) := by
  apply str_ext
  simp [String.data_append, List.append_assoc]

theorem str_append_empty (s : String) : s ++ "" = s := by
  apply str_ext
  simp [String.data_append]

theorem foldl_blocks (l : List Book) (acc : String) :
    l.foldl (fun a b => a ++ bookBlock b) acc = acc ++ renderedBlocks l := by
  induction l generalizing acc with
  | nil => simp [renderedBlocks, str_append_empty]
  | cons b t ih =>
    show t.foldl (fun a b => a ++ bookBlock b) (acc ++ bookBlock b) = _
    rw [ih, str_append_assoc]
    rfl

/-! Claim theorems. -/

/-- C1 counterexample: the claim "limit ≤ 0 yields an empty match set" fails
at limit = -1 with the empty keyword: -1 ≤ 0, yet the match set is non-empty
(the i32 is cast to usize, so -1 behaves as an enormous take count). -/
theorem search_nonpos_limit_counterexample :
    ((-1 : Int) ≤ 0) ∧ searchResults get_fake_books ⟨"", some (-1)⟩ ≠ [] := by
  constructor
  · decide
  · decide

/-- C1 amended: for every catalog and keyword, a limit of exactly 0 yields an
empty match set, and the tool still answers with a success envelope (carrying
the no-results message), not an error. -/
theorem search_zero_limit_empty (books : List Book) (keyword : String) :
    searchResults books ⟨keyword, some 0⟩ = [] ∧
    search ⟨keyword, some 0⟩ =
      Except.ok (CallToolResult.success [Content.text (noResultsMsg keyword)]) := by
  have h0 : usizeOfI32 ((some (0 : Int)).getD 5) = 0 := by decide
  have hempty : ∀ bs : List Book, searchResults bs ⟨keyword, some 0⟩ = [] := by
    intro bs
    show (bs.filter (bookMatches keyword)).take (usizeOfI32 ((some (0 : Int)).getD 5)) = []
    rw [h0]
    exact List.take_zero _
  refine ⟨hempty books, ?_⟩
  show Except.ok (CallToolResult.success
      [Content.text (renderOutput keyword (searchResults get_fake_books ⟨keyword, some 0⟩))]) = _
  rw [hempty get_fake_books]
  rfl

/-- C2: every book in the match set has the lowercased keyword as a substring
of its lowercased title, author, or description. -/
theorem mem_search_matches (books : List Book) (q : SearchQuery) (b : Book)
    (hb : b ∈ searchResults books q) :
    (lowerString q.keyword).data <:+: (lowerString b.title).data ∨
    (lowerString q.keyword).data <:+: (lowerString b.author).data ∨
    (lowerString q.keyword).data <:+: (lowerString b.description).data := by
  have h1 : b ∈ books.filter (bookMatches q.keyword) := List.mem_of_mem_take hb
  have h2 : bookMatches q.keyword b = true := (List.mem_filter.mp h1).2
  simp only [bookMatches, strContains, Bool.or_eq_true, decide_eq_true_eq] at h2
  tauto

/-- C2 witness: the quantum-cooking book is returned for keyword 量子 and
indeed carries the keyword in one of its three searched fields. -/
theorem mem_search_matches_witness :
    (lowerString "量子").data <:+: (lowerString quantumBook.title).data ∨
    (lowerString "量子").data <:+: (lowerString quantumBook.author).data ∨
    (lowerString "量子").data <:+: (lowerString quantumBook.description).data :=
  mem_search_matches get_fake_books ⟨"量子", none⟩ quantumBook (by decide)

/-- C3 counterexample: at limit = -1 with the empty keyword the match set has
5 entries, so its length is not at most the given limit. -/
theorem search_length_counterexample :
    (searchResults get_fake_books ⟨"", some (-1)⟩).length = 5 ∧
    ¬(((searchResults get_fake_books ⟨"", some (-1)⟩).length : Int) ≤ -1) := by
  constructor
  · decide
  · decide

/-- C3 amended: when the effective limit (the given one, or the default 5
when absent) is non-negative, the match set has at most that many entries,
and it never exceeds the catalog size. -/
theorem search_length_le (books : List Book) (q : SearchQuery)
    (h : 0 ≤ q.limit.getD 5) :
    (searchResults books q).length ≤ (q.limit.getD 5).toNat ∧
    (searchResults books q).length ≤ books.length := by
  have hlen : (searchResults books q).length =
      min (usizeOfI32 (q.limit.getD 5)) (books.filter (bookMatches q.keyword)).length :=
    List.length_take _ _
  constructor
  · have hle : usizeOfI32 (q.limit.getD 5) ≤ (q.limit.getD 5).toNat := by
      unfold usizeOfI32
      omega
    exact hlen ▸ le_trans (min_le_left _ _) hle
  · exact hlen ▸ le_trans (min_le_right _ _) (List.length_filter_le _ _)

/-- C3 witness: at keyword empty and limit 3 the bounds hold concretely. -/
theorem search_length_le_witness :
    (searchResults get_fake_books ⟨"", some 3⟩).length ≤ ((some (3 : Int)).getD 5).toNat ∧
    (searchResults get_fake_books ⟨"", some 3⟩).length ≤ get_fake_books.length :=
  search_length_le get_fake_books ⟨"", some 3⟩ (by decide)

/-- C4: the match set is a sublist of the catalog, so any two returned books
appear in the same relative order as in the catalog (stable filtering). -/
theorem search_sublist (books : List Book) (q : SearchQuery) :
    List.Sublist (searchResults books q) books :=
  (List.take_sublist _ _).trans (List.filter_sublist _)

/-- C7: read_resource always fails with the resource-not-found error (code
-32002) whose detail object carries the requested uri; it never succeeds. -/
theorem read_resource_always_not_found (uri : String) :
    read_resource uri = Except.error
      { code := -32002, message := "resource_not_found",
        data := some (Json.obj [("uri", Json.str uri)]) } :=
  rfl

/-- C9: for every query, search returns a success envelope holding exactly
one text content block; the error branch is never taken. -/
theorem search_always_ok (q : SearchQuery) :
    ∃ s : String, search q =
      Except.ok { content := [Content.text s], isError := some false } :=
  ⟨renderOutput q.keyword (searchResults get_fake_books q), rfl⟩

/-- C10: the i32 limit is cast to usize by reduction modulo 2^64, so a limit
of -1 becomes 2^64 - 1 and acts as unlimited: with the empty keyword, the
result is every matching catalog record, not the empty list. -/
theorem search_negative_limit_unlimited :
    usizeOfI32 (-1) = 2 ^ 64 - 1 ∧
    searchResults get_fake_books ⟨"", some (-1)⟩ = get_fake_books.filter (bookMatches "") ∧
    searchResults get_fake_books ⟨"", some (-1)⟩ ≠ [] := by
  refine ⟨by decide, by decide, by decide⟩

/-- C5: the rendered response is the single no-results message (naming the
keyword) exactly when the match set is empty, and otherwise the header line
(naming the keyword) followed by the per-book blocks in match-set order; the
two shapes are never equal, so the cases are structurally distinguishable. -/
theorem render_structure (keyword : String) (results : List Book) :
    renderOutput keyword results =
      (if results.isEmpty then noResultsMsg keyword
       else searchHeader keyword ++ renderedBlocks results) ∧
    noResultsMsg keyword ≠ searchHeader keyword ++ renderedBlocks results := by
  constructor
  · unfold renderOutput
    by_cases h : results.isEmpty
    · rw [if_pos h, if_pos h]
    · rw [if_neg h, if_neg h]
      exact foldl_blocks results (searchHeader keyword)
  · intro h
    have hd := congrArg String.data h
    simp only [noResultsMsg, searchHeader, String.data_append, List.append_assoc] at hd
    have h2 := List.append_cancel_left (List.append_cancel_left hd)
    have h3 : noResultsTail.data[2]? = (headerTail.data ++ (renderedBlocks results).data)[2]? :=
      congrArg (fun l : List Char => l[2]?) h2
    rw [List.getElem?_append_left (by decide)] at h3
    exact absurd h3 (by decide)

/-- C6: matching is case-insensitive by lowercase folding: every query gives
the same match set as the same query with a pre-lowercased keyword; in
particular the keywords DR. and dr. return identical match sets.  The keyword
is not trimmed: with surrounding whitespace ( dr.) nothing matches although
dr. alone does. -/
theorem search_case_insensitive :
    (∀ (books : List Book) (q : SearchQuery),
        searchResults books q = searchResults books ⟨lowerString q.keyword, q.limit⟩) ∧
    searchResults get_fake_books ⟨"DR.", none⟩ = searchResults get_fake_books ⟨"dr.", none⟩ ∧
    searchResults get_fake_books ⟨" dr.", none⟩ = [] ∧
    searchResults get_fake_books ⟨"dr.", none⟩ ≠ [] := by
  refine ⟨?_, by decide, by decide, by decide⟩
  intro books q
  show (books.filter (bookMatches q.keyword)).take _ =
    (books.filter (bookMatches (lowerString q.keyword))).take _
  have hm : bookMatches (lowerString q.keyword) = bookMatches q.keyword := by
    funext b
    simp only [bookMatches, lowerString_idem]
  rw [hm]

set_option maxRecDepth 20000 in
/-- C8: searching for 量子 with the limit absent returns exactly the
quantum-cooking book, and the rendered response contains its title, author,
year, ISBN, and description. -/
theorem search_quantum_scenario :
    searchResults get_fake_books ⟨"量子", none⟩ = [quantumBook] ∧
    quantumBook.title.data <:+:
      (renderOutput "量子" (searchResults get_fake_books ⟨"量子", none⟩)).data ∧
    quantumBook.author.data <:+:
      (renderOutput "量子" (searchResults get_fake_books ⟨"量子", none⟩)).data ∧
    (toString quantumBook.year).data <:+:
      (renderOutput "量子" (searchResults get_fake_books ⟨"量子", none⟩)).data ∧
    quantumBook.isbn.data <:+:
      (renderOutput "量子" (searchResults get_fake_books ⟨"量子", none⟩)).data ∧
    quantumBook.description.data <:+:
      (renderOutput "量子" (searchResults get_fake_books ⟨"量子", none⟩)).data := by
  refine ⟨by decide, by decide, by decide, by decide, by decide, by decide⟩

end BookServer
